import Mathlib

/-!
# Verification of the TraceKit CLI against its specification

Shallow embedding of the TraceKit CLI (Go) in Lean 4.

Modelling conventions used throughout this file:

* A Go string (a byte string; all interesting data here is ASCII) is
  modelled as a `List Char`.  `String` literals are converted with `str`.
* The content of a text file is modelled as its list of lines, i.e. the
  result of Go's `strings.Split(content, "\n")`; `strings.Join(lines, "\n")`
  is its inverse, so the line list determines the content.
* Go's `strings.Contains s pat` is `containsSubstr s pat`
  (`pat` is an infix of `s`), `strings.HasPrefix` is `List.isPrefixOf`
  via `decide (pat <+: s)`, and `strings.TrimSpace` is `trimList`
  (for the ASCII whitespace that occurs in the sources).
* The filesystem and network are passed in explicitly: a possibly-absent
  file is an `Option`, an HTTP exchange is a `NetOutcome` value and the
  possible results of `json.Unmarshal` on a body are recorded in a
  `BodyModel`.
-/

namespace TracekitCLI

/-- Convert a Lean string literal to the `List Char` model of a Go string. -/
def str (s : String) : List Char := s.data

/-- Go `strings.Contains s pat`: `pat` occurs as a contiguous substring of `s`. -/
def containsSubstr (s pat : List Char) : Bool := decide (pat <:+: s)

/-- Go `strings.HasPrefix s pat`. -/
def hasPrefixStr (s pat : List Char) : Bool := decide (pat <+: s)

/-- Go `strings.TrimSpace`: drop whitespace from both ends
(the sources only ever contain ASCII whitespace). -/
def trimList (l : List Char) : List Char :=
  ((l.dropWhile Char.isWhitespace).reverse.dropWhile Char.isWhitespace).reverse

/-! ## Configuration store (`internal/config/config.go`) -/

/-- `config.Config` from `internal/config/config.go`. -/
structure Config where
  APIKey : List Char
  Endpoint : List Char
  ServiceName : List Char
  Enabled : List Char
  CodeMonitoringEnabled : List Char
deriving DecidableEq

/-- The header comment line identifying the TraceKit block in `.env`. -/
def tracekitHeader : List Char := str "# TraceKit Configuration"

/-- The lines of the block rendered by `Save`'s `fmt.Sprintf`
(without the leading and trailing newline of the format string):
the header comment followed by the five `TRACEKIT_*` key-value lines. -/
def renderConfigLines (c : Config) : List (List Char) :=
  [ tracekitHeader
  , str "TRACEKIT_API_KEY=" ++ c.APIKey
  , str "TRACEKIT_ENDPOINT=" ++ c.Endpoint
  , str "TRACEKIT_SERVICE_NAME=" ++ c.ServiceName
  , str "TRACEKIT_ENABLED=" ++ c.Enabled
  , str "TRACEKIT_CODE_MONITORING_ENABLED=" ++ c.CodeMonitoringEnabled ]

/-- The loop of `config.Save` that removes an existing TraceKit section
(`config.go` lines 103-125, identical to `saveEnvConfig` in `cmd/init.go`):
a line containing the header is dropped and starts skipping; while skipping,
`TRACEKIT_`-prefixed lines and blank lines are dropped; the first other
non-blank line stops the skipping and is kept. -/
def removeTracekitSection (skip : Bool) : List (List Char) → List (List Char)
  | [] => []
  | line :: rest =>
    if containsSubstr line tracekitHeader then
      removeTracekitSection true rest
    else if skip then
      if hasPrefixStr (trimList line) (str "TRACEKIT_") then
        removeTracekitSection true rest
      else if trimList line = [] then
        removeTracekitSection true rest
      else
        line :: removeTracekitSection false rest
    else
      line :: removeTracekitSection false rest

/-- `strings.Join newLines "\n" + tracekitConfig`, at the line level.
The rendered block string starts and ends with a newline, so joining it
after `newLines` contributes the rendered lines plus a final empty line;
when `newLines` is empty (`strings.Join(nil, "\n") = ""`) the block's
leading newline yields an empty first line instead. -/
def appendBlock (ls : List (List Char)) (c : Config) : List (List Char) :=
  if ls = [] then [] :: (renderConfigLines c ++ [[]])
  else ls ++ (renderConfigLines c ++ [[]])

/-- `config.Save` on an existing `.env` content (`config.go` lines 100-130):
if the content contains the header anywhere, remove the existing TraceKit
section and append the fresh block, otherwise append the fresh block to the
existing content (whose last line is then terminated by the block's leading
newline). -/
def saveContentLines (existing : List (List Char)) (c : Config) : List (List Char) :=
  if existing.any (fun l => containsSubstr l tracekitHeader) then
    appendBlock (removeTracekitSection false existing) c
  else
    existing ++ (renderConfigLines c ++ [[]])

/-- `config.Save` (`config.go` lines 77-138): the file is either absent
(`none`, rewritten as just the rendered block) or present with the given
lines. The result is the full rewritten file content, as lines. -/
def save (file : Option (List (List Char))) (c : Config) : List (List Char) :=
  match file with
  | none => [] :: (renderConfigLines c ++ [[]])
  | some existing => saveContentLines existing c

/-- Go `strings.SplitN(line, "=", 2)` restricted to the case the caller
uses: `none` when the line has no `=` (length-1 split, skipped by `Read`),
otherwise the parts before and after the first `=`. -/
def splitKV (l : List Char) : Option (List Char × List Char) :=
  if l.contains '=' then
    some (l.takeWhile (fun c => c ≠ '='), (l.dropWhile (fun c => c ≠ '=')).tail)
  else none

/-- One iteration of `config.Read`'s parse loop (`config.go` lines 37-66):
skip blank lines and `#` comments, split at the first `=`, and assign the
trimmed value to the matching field. -/
def applyLine (cfg : Config) (rawLine : List Char) : Config :=
  let line := trimList rawLine
  if line = [] then cfg
  else if hasPrefixStr line (str "#") then cfg
  else
    match splitKV line with
    | none => cfg
    | some (k, v) =>
      let key := trimList k
      let value := trimList v
      if key = str "TRACEKIT_API_KEY" then { cfg with APIKey := value }
      else if key = str "TRACEKIT_ENDPOINT" then { cfg with Endpoint := value }
      else if key = str "TRACEKIT_SERVICE_NAME" then { cfg with ServiceName := value }
      else if key = str "TRACEKIT_ENABLED" then { cfg with Enabled := value }
      else if key = str "TRACEKIT_CODE_MONITORING_ENABLED" then
        { cfg with CodeMonitoringEnabled := value }
      else cfg

/-- The parse loop of `config.Read` over all lines, starting from the
zero-valued `Config{}`. -/
def parseConfig (lines : List (List Char)) : Config :=
  lines.foldl applyLine ⟨[], [], [], [], []⟩

/-- `config.Read` on the lines of an existing `.env` file
(`config.go` lines 33-73): parse, then fail unless `TRACEKIT_API_KEY`
was set to a non-empty value. -/
def readConfig (lines : List (List Char)) : Except (List Char) Config :=
  let cfg := parseConfig lines
  if cfg.APIKey = [] then .error (str "TRACEKIT_API_KEY not found in .env")
  else .ok cfg

/-- `config.Read` including the existence check (`config.go` lines 23-25). -/
def readEnv (file : Option (List (List Char))) : Except (List Char) Config :=
  match file with
  | none => .error (str ".env file not found")
  | some lines => readConfig lines

/-! ## Credential masking (`internal/utils/utils.go`) -/

/-- `utils.MaskAPIKey`: keys shorter than 20 bytes are returned unchanged,
otherwise the first 15 and last 4 bytes are kept around a literal "...". -/
def maskAPIKey (apiKey : List Char) : List Char :=
  if apiKey.length < 20 then apiKey
  else apiKey.take 15 ++ str "..." ++ apiKey.drop (apiKey.length - 4)

/-! ## Framework detector (`internal/detector/detector.go`) -/

/-- `detector.Framework`. -/
structure Framework where
  name : String
  version : String
  fwType : String
deriving DecidableEq

/-- The manifest files `detector.Detect` looks for in the working
directory; `some content` means the file exists with that content
(a file that exists is assumed readable: `os.ReadFile` errors, the only
error path of `Detect`, are not modelled). -/
structure ProjectDir where
  goMod : Option (List Char)
  composerJson : Option (List Char)
  packageJson : Option (List Char)
  requirementsTxt : Option (List Char)
  pyprojectToml : Option (List Char)
  gemfile : Option (List Char)

/-- `detector.detectGoFramework`: substring checks on `go.mod`. -/
def detectGoFramework (content : List Char) : Framework :=
  if containsSubstr content (str "github.com/gin-gonic/gin") then ⟨"gin", "", "go"⟩
  else if containsSubstr content (str "github.com/labstack/echo") then ⟨"echo", "", "go"⟩
  else if containsSubstr content (str "github.com/gofiber/fiber") then ⟨"fiber", "", "go"⟩
  else ⟨"go", "", "go"⟩

/-- `detector.detectPHPFramework`: substring checks on `composer.json`. -/
def detectPHPFramework (content : List Char) : Framework :=
  if containsSubstr content (str "gemvc/library") then ⟨"gemvc", "", "php"⟩
  else if containsSubstr content (str "laravel/framework") then ⟨"laravel", "", "php"⟩
  else if containsSubstr content (str "symfony/symfony") then ⟨"symfony", "", "php"⟩
  else ⟨"php", "", "php"⟩

/-- `detector.detectNodeFramework`: substring checks on `package.json`. -/
def detectNodeFramework (content : List Char) : Framework :=
  if containsSubstr content (str "\"express\"") then ⟨"express", "", "node"⟩
  else if containsSubstr content (str "\"next\"") then ⟨"nextjs", "", "node"⟩
  else if containsSubstr content (str "@nestjs/core") then ⟨"nestjs", "", "node"⟩
  else ⟨"node", "", "node"⟩

/-- `detector.detectPythonFramework`: scans `requirements.txt` when it
exists (a read error is swallowed), otherwise returns generic python. -/
def detectPythonFramework (d : ProjectDir) : Framework :=
  match d.requirementsTxt with
  | some content =>
    if containsSubstr content (str "Django") then ⟨"django", "", "python"⟩
    else if containsSubstr content (str "Flask") then ⟨"flask", "", "python"⟩
    else if containsSubstr content (str "fastapi") then ⟨"fastapi", "", "python"⟩
    else ⟨"python", "", "python"⟩
  | none => ⟨"python", "", "python"⟩

/-- `detector.detectRubyFramework`: substring checks on `Gemfile`. -/
def detectRubyFramework (content : List Char) : Framework :=
  if containsSubstr content (str "rails") then ⟨"rails", "", "ruby"⟩
  else if containsSubstr content (str "sinatra") then ⟨"sinatra", "", "ruby"⟩
  else ⟨"ruby", "", "ruby"⟩

/-- `detector.Detect` (`detector.go` lines 17-53): checks for manifests in
a fixed priority order; the first manifest type found wins; absence of any
manifest yields the generic descriptor (and is not an error). -/
def detect (d : ProjectDir) : Framework :=
  match d.goMod with
  | some c => detectGoFramework c
  | none =>
  match d.composerJson with
  | some c => detectPHPFramework c
  | none =>
  match d.packageJson with
  | some c => detectNodeFramework c
  | none =>
  if d.requirementsTxt.isSome || d.pyprojectToml.isSome then detectPythonFramework d
  else
  match d.gemfile with
  | some c => detectRubyFramework c
  | none => ⟨"generic", "", "unknown"⟩

/-- The directory with no manifest files at all. -/
def emptyDir : ProjectDir := ⟨none, none, none, none, none, none⟩

/-! ## API client (`internal/client/client.go`) -/

/-- `client.RegisterResponse` (the `expires_at` timestamp is kept as the
raw string it was parsed from). -/
structure RegisterResponse where
  verificationRequired : Bool
  sessionID : List Char
  message : List Char
  expiresAt : List Char
deriving DecidableEq

/-- The possible outcomes of `json.Unmarshal` on a response body:
`errorField = some m` means unmarshalling into `client.ErrorResponse`
succeeds with `Error` field `m` (any valid JSON object qualifies, with
`m = ""` when the `error` key is absent); `asRegister` is the result of
unmarshalling into `RegisterResponse`; `asStatusMap` records whether
unmarshalling into `map[string]interface{}` succeeds. -/
structure BodyModel where
  raw : List Char
  errorField : Option (List Char)
  asRegister : Option RegisterResponse
  asStatusMap : Bool
deriving DecidableEq

/-- The outcome of one HTTP round trip: `failure` models a
`c.HTTPClient.Do` error (network failure), `response` a received status
code and body. -/
inductive NetOutcome where
  | failure (msg : List Char)
  | response (status : Nat) (body : BodyModel)
deriving DecidableEq

/-- The error values produced by the client methods (the Go code renders
each as a `fmt.Errorf` string; the constructors keep the same data):
`transport` wraps a network failure, `apiError` is
"API error (status): msg" from a parsed error body, `unexpectedStatus` is
"unexpected status code status: body" when the body does not parse,
`parseFailure` a success body that fails to unmarshal, and `authRequired`
is `GetStatus`'s "API key required" precondition failure. -/
inductive APIError where
  | transport (msg : List Char)
  | apiError (status : Nat) (msg : List Char)
  | unexpectedStatus (status : Nat) (raw : List Char)
  | parseFailure
  | authRequired
deriving DecidableEq

/-- `client.Register` (`client.go` lines 78-119) response handling:
transport failure is wrapped; a status other than 200 yields an API error
when the body unmarshals into `ErrorResponse` and the unexpected-status
fallback otherwise; a 200 body is unmarshalled into `RegisterResponse`. -/
def register (net : NetOutcome) : Except APIError RegisterResponse :=
  match net with
  | .failure m => .error (.transport m)
  | .response status body =>
    if status ≠ 200 then
      match body.errorField with
      | some m => .error (.apiError status m)
      | none => .error (.unexpectedStatus status body.raw)
    else
      match body.asRegister with
      | some r => .ok r
      | none => .error .parseFailure

/-- `client.GetStatus` (`client.go` lines 163-200): requires a non-empty
API key, then the same response-handling shape as `Register`; the parsed
`map[string]interface{}` payload is abstracted to `Unit`. -/
def getStatus (apiKey : List Char) (net : NetOutcome) : Except APIError Unit :=
  if apiKey = [] then .error .authRequired
  else
    match net with
    | .failure m => .error (.transport m)
    | .response status body =>
      if status ≠ 200 then
        match body.errorField with
        | some m => .error (.apiError status m)
        | none => .error (.unexpectedStatus status body.raw)
      else
        if body.asStatusMap then .ok () else .error .parseFailure

/-! ## `tracekit status` (`cmd/status.go`) -/

/-- The observable outcome of `runStatus`: every non-panicking path prints
its result and returns `nil` (the command never returns a non-nil error).
`noConfigError` is the "No TraceKit configuration found" error print,
`verifyError` the "Failed to verify API key" error print after a failed
`GetStatus`, `completed` the full run, and `nilPointerPanic` a runtime
nil-pointer dereference. -/
inductive RunStatusOutcome where
  | noConfigError
  | verifyError (e : APIError)
  | completed
  | nilPointerPanic
deriving DecidableEq

/-- `runStatus` (`cmd/status.go`): read the config (error: print and
return nil); run framework detection, a failure of which only prints a
warning and leaves the `framework` pointer nil; call `GetStatus` (error:
print and return nil).  After a successful `GetStatus` the next-steps code
unconditionally evaluates `framework.Name`, which dereferences the nil
pointer when detection had failed. -/
def runStatus (cfgRead : Except (List Char) Config)
    (det : Except (List Char) Framework) (net : NetOutcome) : RunStatusOutcome :=
  match cfgRead with
  | .error _ => .noConfigError
  | .ok cfg =>
    match getStatus cfg.APIKey net with
    | .error e => .verifyError e
    | .ok _ =>
      match det with
      | .error _ => .nilPointerPanic
      | .ok _ => .completed

/-! ## `tracekit webhook create` / `list` (`cmd/webhook_create.go`,
`cmd/webhook_list.go`) -/

/-- Where `runWebhookCreate` stops: each validation failure returns the
corresponding error before any HTTP request; `networkCall` marks reaching
the `http.NewRequest`/`client.Do` POST with the validated url and name. -/
inductive WebhookCreateOutcome where
  | configError
  | notAuthenticated
  | nameRequired
  | urlRequired
  | badScheme
  | httpsRequired
  | noEventsSelected
  | networkCall (url name : List Char)
deriving DecidableEq

/-- `runWebhookCreate` up to the network call: config and authentication
checks, trimmed prompt inputs, URL scheme validation, the HTTPS
enforcement for non-dev mode (exempting URLs that contain "localhost" or
"127.0.0.1" as a substring), and the event-selection check (the parsed
selection is passed in as `selectedEvents`). -/
def runWebhookCreate (cfgRead : Except (List Char) Config) (useDev : Bool)
    (nameInput urlInput : List Char) (selectedEvents : List (List Char)) :
    WebhookCreateOutcome :=
  match cfgRead with
  | .error _ => .configError
  | .ok cfg =>
    if cfg.APIKey = [] then .notAuthenticated
    else
      let name := trimList nameInput
      if name = [] then .nameRequired
      else
        let url := trimList urlInput
        if url = [] then .urlRequired
        else if !hasPrefixStr url (str "https://") && !hasPrefixStr url (str "http://") then
          .badScheme
        else if !useDev && !hasPrefixStr url (str "https://")
            && !containsSubstr url (str "localhost")
            && !containsSubstr url (str "127.0.0.1") then
          .httpsRequired
        else if selectedEvents = [] then .noEventsSelected
        else .networkCall url name

/-- Where `runWebhookList` stops before rendering. -/
inductive WebhookListOutcome where
  | configError
  | notAuthenticated
  | networkCall
deriving DecidableEq

/-- `runWebhookList` up to the network call: config and authentication
checks, then the GET request. -/
def runWebhookList (cfgRead : Except (List Char) Config) : WebhookListOutcome :=
  match cfgRead with
  | .error _ => .configError
  | .ok cfg =>
    if cfg.APIKey = [] then .notAuthenticated
    else .networkCall

/-! ## `tracekit upgrade` (`cmd/upgrade.go`) -/

/-- `SubscriptionResponse` from `cmd/upgrade.go` (usage abstracted to the
trace limit the command prints). -/
structure SubscriptionResponse where
  plan : List Char
  status : List Char
  traceLimit : Int
deriving DecidableEq

/-- `UpgradeResult`, the value the callback handler sends on the channel. -/
structure UpgradeResult where
  resStatus : List Char
  plan : List Char
deriving DecidableEq

/-- The `/callback` handler of `startCallbackServer`: a request carrying
`status=success` sends `UpgradeResult{status, plan}` on the result
channel; any other request only gets an acknowledgement response. -/
def handleCallback (status plan : List Char) : Option UpgradeResult :=
  if status = str "success" then some ⟨status, plan⟩ else none

/-- The result delivered on the (one-slot) channel by a sequence of
callback requests: the first request with `status=success` wins. -/
def firstCallbackResult : List (List Char × List Char) → Option UpgradeResult
  | [] => none
  | (s, p) :: rest =>
    match handleCallback s p with
    | some r => some r
    | none => firstCallbackResult rest

/-- The short callback wait of `runUpgrade`: `2 * time.Minute`. -/
def shortWaitSeconds : Nat := 120

/-- The polling timeout of `pollForUpgrade`: `5 * time.Minute`. -/
def pollTimeoutSeconds : Nat := 300

/-- The polling interval of `pollForUpgrade`: `3 * time.Second`. -/
def pollIntervalSeconds : Nat := 3

/-- The `select` in `runUpgrade` (callback channel vs `time.After`):
a callback result delivered at `t` seconds wins exactly when it arrives
before the short wait elapses. -/
def upgradeSelect (arrival : Option (Nat × UpgradeResult)) : Option UpgradeResult :=
  match arrival with
  | some (t, r) => if t < shortWaitSeconds then some r else none
  | none => none

/-- The outcome of the upgrade wait: resolved by the browser callback,
resolved by a subscription poll observing a new plan, or the polling
timeout error. -/
inductive UpgradeOutcome where
  | callbackSuccess (plan : List Char)
  | pollSuccess (plan : List Char)
  | timeoutFailure
deriving DecidableEq

/-- `pollForUpgrade` (`cmd/upgrade.go` lines 403-431) over the finite
sequence of poll results obtained before the 5-minute timeout fires
(one every 3 seconds): a `getSubscription` error (`none`) is retried, a
subscription whose plan differs from the starting plan terminates the
wait with the new plan, and exhausting the sequence is the timeout. -/
def pollForUpgrade (oldPlan : List Char) : List (Option SubscriptionResponse) → UpgradeOutcome
  | [] => .timeoutFailure
  | none :: rest => pollForUpgrade oldPlan rest
  | some sub :: rest =>
    if sub.plan ≠ oldPlan then .pollSuccess sub.plan
    else pollForUpgrade oldPlan rest

/-- The wait phase of `runUpgrade` (lines 327-349): if the select resolves
with a callback result, report its plan; otherwise fall back to polling. -/
def upgradeWait (oldPlan : List Char) (arrival : Option (Nat × UpgradeResult))
    (polls : List (Option SubscriptionResponse)) : UpgradeOutcome :=
  match upgradeSelect arrival with
  | some r => .callbackSuccess r.plan
  | none => pollForUpgrade oldPlan polls

/-! ## Lemmas about the `.env` block-replacement loop -/

/-- The header line contains itself. -/
theorem header_contains_header : containsSubstr tracekitHeader tracekitHeader = true := by
  decide

/-- An empty line does not contain the header. -/
theorem empty_not_header : containsSubstr [] tracekitHeader = false := by
  decide

/-- Every line kept by the replacement loop is free of the header comment:
the loop drops any line containing it, in every state. -/
theorem removeTracekitSection_no_header (ls : List (List Char)) :
    ∀ (skip : Bool), ∀ l ∈ removeTracekitSection skip ls,
      containsSubstr l tracekitHeader = false := by
  induction ls with
  | nil => intro skip l hl; simp [removeTracekitSection] at hl
  | cons line rest ih =>
    intro skip l hl
    rw [removeTracekitSection] at hl
    by_cases h1 : containsSubstr line tracekitHeader = true
    · rw [if_pos h1] at hl; exact ih true l hl
    · rw [if_neg h1] at hl
      cases skip with
      | false =>
        rw [if_neg (by simp)] at hl
        rcases List.mem_cons.mp hl with rfl | hl'
        · simpa using h1
        · exact ih false l hl'
      | true =>
        rw [if_pos rfl] at hl
        by_cases h2 : hasPrefixStr (trimList line) (str "TRACEKIT_") = true
        · rw [if_pos h2] at hl; exact ih true l hl
        · rw [if_neg h2] at hl
          by_cases h3 : trimList line = []
          · rw [if_pos h3] at hl; exact ih true l hl
          · rw [if_neg h3] at hl
            rcases List.mem_cons.mp hl with rfl | hl'
            · simpa using h1
            · exact ih false l hl'

/-- When not skipping, lines free of the header pass through unchanged. -/
theorem removeTracekitSection_id (ls : List (List Char))
    (h : ∀ l ∈ ls, containsSubstr l tracekitHeader = false) :
    removeTracekitSection false ls = ls := by
  induction ls with
  | nil => rfl
  | cons line rest ih =>
    have hline := h line (List.mem_cons_self _ _)
    rw [removeTracekitSection, if_neg (by simp [hline]), if_neg (by simp)]
    rw [ih (fun l hl => h l (List.mem_cons_of_mem _ hl))]

/-- While skipping, a run of lines that each contain the header, are
`TRACEKIT_`-prefixed after trimming, or are blank, is dropped entirely. -/
theorem removeTracekitSection_skips_block (block rest : List (List Char))
    (h : ∀ l ∈ block, containsSubstr l tracekitHeader = true ∨
        hasPrefixStr (trimList l) (str "TRACEKIT_") = true ∨ trimList l = []) :
    removeTracekitSection true (block ++ rest) = removeTracekitSection true rest := by
  induction block with
  | nil => rfl
  | cons line bs ih =>
    have hd := h line (List.mem_cons_self _ _)
    have ih' := ih (fun l hl => h l (List.mem_cons_of_mem _ hl))
    rw [List.cons_append, removeTracekitSection]
    by_cases h1 : containsSubstr line tracekitHeader = true
    · rw [if_pos h1]; exact ih'
    · rw [if_neg h1, if_pos rfl]
      by_cases h2 : hasPrefixStr (trimList line) (str "TRACEKIT_") = true
      · rw [if_pos h2]; exact ih'
      · rcases hd with h1' | h2' | h3
        · exact absurd h1' h1
        · exact absurd h2' h2
        · rw [if_neg h2, if_pos h3]; exact ih'

/-- Skipping stops at the first non-blank line that neither contains the
header nor is `TRACEKIT_`-prefixed; that line is kept. -/
theorem removeTracekitSection_stops (r : List Char) (rs : List (List Char))
    (h1 : containsSubstr r tracekitHeader = false)
    (h2 : hasPrefixStr (trimList r) (str "TRACEKIT_") = false)
    (h3 : trimList r ≠ []) :
    removeTracekitSection true (r :: rs) = r :: removeTracekitSection false rs := by
  rw [removeTracekitSection, if_neg (by simp [h1]), if_pos rfl,
    if_neg (by simp [h2]), if_neg h3]

/-- No line kept by the replacement loop contains the header. -/
theorem countP_removeTracekitSection (ls : List (List Char)) (skip : Bool) :
    (removeTracekitSection skip ls).countP (fun l => containsSubstr l tracekitHeader) = 0 := by
  rw [List.countP_eq_zero]
  intro l hl
  simp [removeTracekitSection_no_header ls skip l hl]

/-- A freshly rendered block (with its trailing empty line) has exactly one
line containing the header, provided none of the five configuration values
smuggles the header comment into its key-value line. -/
theorem countP_renderBlock (c : Config)
    (h1 : containsSubstr (str "TRACEKIT_API_KEY=" ++ c.APIKey) tracekitHeader = false)
    (h2 : containsSubstr (str "TRACEKIT_ENDPOINT=" ++ c.Endpoint) tracekitHeader = false)
    (h3 : containsSubstr (str "TRACEKIT_SERVICE_NAME=" ++ c.ServiceName) tracekitHeader = false)
    (h4 : containsSubstr (str "TRACEKIT_ENABLED=" ++ c.Enabled) tracekitHeader = false)
    (h5 : containsSubstr (str "TRACEKIT_CODE_MONITORING_ENABLED=" ++ c.CodeMonitoringEnabled)
      tracekitHeader = false) :
    (renderConfigLines c ++ [[]]).countP (fun l => containsSubstr l tracekitHeader) = 1 := by
  simp [renderConfigLines, List.countP_cons, List.countP_append, h1, h2, h3, h4, h5,
    header_contains_header, empty_not_header]

/-! ## Claim C1 -/

/-- C1: Saving over a `.env` file whose content is a TraceKit
configuration block (its header line followed by `TRACEKIT_`-prefixed or
blank lines, the removed region extending to the next non-matching,
non-blank line) followed by unrelated lines removes exactly the old
block's lines and preserves every unrelated line verbatim and in its
original relative order; the rewritten file is those lines followed by
the freshly rendered block (and the file's final newline). -/
theorem save_replaces_block_keeps_unrelated
    (hdr : List Char) (blockTail : List (List Char)) (r : List Char)
    (rs : List (List Char)) (c : Config)
    (hhdr : containsSubstr hdr tracekitHeader = true)
    (htail : ∀ l ∈ blockTail, containsSubstr l tracekitHeader = true ∨
      hasPrefixStr (trimList l) (str "TRACEKIT_") = true ∨ trimList l = [])
    (hrest : ∀ l ∈ r :: rs, containsSubstr l tracekitHeader = false)
    (hr1 : hasPrefixStr (trimList r) (str "TRACEKIT_") = false)
    (hr2 : trimList r ≠ []) :
    save (some ((hdr :: blockTail) ++ (r :: rs))) c
      = (r :: rs) ++ (renderConfigLines c ++ [[]]) := by
  have hany : ((hdr :: blockTail) ++ (r :: rs)).any
      (fun l => containsSubstr l tracekitHeader) = true := by
    rw [List.any_eq_true]
    exact ⟨hdr, by simp, hhdr⟩
  rw [save, saveContentLines, if_pos hany, List.cons_append, removeTracekitSection,
    if_pos hhdr, removeTracekitSection_skips_block blockTail (r :: rs) htail,
    removeTracekitSection_stops r rs (hrest r (List.mem_cons_self _ _)) hr1 hr2,
    removeTracekitSection_id rs (fun l hl => hrest l (List.mem_cons_of_mem _ hl)),
    appendBlock, if_neg (by simp)]

/-- Witness for C1 at a concrete file: an old block with two value lines,
followed by three unrelated lines (one of them blank). -/
theorem save_replaces_block_keeps_unrelated_witness :
    save (some (((str "# TraceKit Configuration") ::
        [str "TRACEKIT_API_KEY=old_key", str "TRACEKIT_ENDPOINT=old_ep"]) ++
        ([str "FOO=bar"] ++ [str "", str "BAR=baz"]))) ⟨str "k", str "e", str "s", str "t", str "u"⟩
      = ([str "FOO=bar"] ++ [str "", str "BAR=baz"]) ++
        (renderConfigLines ⟨str "k", str "e", str "s", str "t", str "u"⟩ ++ [[]]) :=
  save_replaces_block_keeps_unrelated (str "# TraceKit Configuration")
    [str "TRACEKIT_API_KEY=old_key", str "TRACEKIT_ENDPOINT=old_ep"]
    (str "FOO=bar") [str "", str "BAR=baz"] ⟨str "k", str "e", str "s", str "t", str "u"⟩
    (by decide) (by decide) (by decide) (by decide) (by decide)

/-! ## Claim C2 -/

/-- C2: For every starting `.env` state (absent file, or any content,
including content already holding one or several header lines) and every
configuration record whose rendered key-value lines do not themselves
contain the header comment, the file produced by `Save` contains exactly
one TraceKit configuration header line: the block is found and replaced,
never duplicated. -/
theorem save_yields_single_block
    (file : Option (List (List Char))) (c : Config)
    (h1 : containsSubstr (str "TRACEKIT_API_KEY=" ++ c.APIKey) tracekitHeader = false)
    (h2 : containsSubstr (str "TRACEKIT_ENDPOINT=" ++ c.Endpoint) tracekitHeader = false)
    (h3 : containsSubstr (str "TRACEKIT_SERVICE_NAME=" ++ c.ServiceName) tracekitHeader = false)
    (h4 : containsSubstr (str "TRACEKIT_ENABLED=" ++ c.Enabled) tracekitHeader = false)
    (h5 : containsSubstr (str "TRACEKIT_CODE_MONITORING_ENABLED=" ++ c.CodeMonitoringEnabled)
      tracekitHeader = false) :
    (save file c).countP (fun l => containsSubstr l tracekitHeader) = 1 := by
  have hblock := countP_renderBlock c h1 h2 h3 h4 h5
  match file with
  | none =>
    rw [save, List.countP_cons_of_neg _ _ (by simp [empty_not_header])]
    exact hblock
  | some existing =>
    rw [save, saveContentLines]
    by_cases hany : existing.any (fun l => containsSubstr l tracekitHeader) = true
    · rw [if_pos hany, appendBlock]
      by_cases hnil : removeTracekitSection false existing = []
      · rw [if_pos hnil, List.countP_cons_of_neg _ _ (by simp [empty_not_header])]
        exact hblock
      · rw [if_neg hnil, List.countP_append, countP_removeTracekitSection]
        simpa using hblock
    · rw [if_neg hany, List.countP_append]
      have hz : existing.countP (fun l => containsSubstr l tracekitHeader) = 0 := by
        rw [List.countP_eq_zero]
        intro l hl
        have := List.any_eq_true.not.mp hany
        push_neg at this
        simpa using this l hl
      rw [hz]
      simpa using hblock

/-- Witness for C2 at a concrete file that already holds two header lines. -/
theorem save_yields_single_block_witness :
    (save (some [str "X=1", str "# TraceKit Configuration", str "TRACEKIT_API_KEY=a",
        str "Y=2", str "# TraceKit Configuration", str "TRACEKIT_API_KEY=b"])
        ⟨str "newkey", str "ep", str "svc", str "true", str "false"⟩).countP
      (fun l => containsSubstr l tracekitHeader) = 1 :=
  save_yields_single_block
    (some [str "X=1", str "# TraceKit Configuration", str "TRACEKIT_API_KEY=a",
      str "Y=2", str "# TraceKit Configuration", str "TRACEKIT_API_KEY=b"])
    ⟨str "newkey", str "ep", str "svc", str "true", str "false"⟩
    (by decide) (by decide) (by decide) (by decide) (by decide)

/-! ## Claim C9 -/

/-- `config.Read` only succeeds when the parsed `TRACEKIT_API_KEY` value
is non-empty (the final validation of `Read`). -/
theorem readConfig_ok_apikey_ne_nil (lines : List (List Char)) (cfg : Config)
    (h : readConfig lines = .ok cfg) : cfg.APIKey ≠ [] := by
  rw [readConfig] at h
  by_cases hA : (parseConfig lines).APIKey = []
  · simp [hA] at h
  · rw [if_neg hA] at h
    cases h
    exact hA

/-- Once the authentication check is passed, no later branch of
`runWebhookCreate` produces the `notAuthenticated` outcome. -/
theorem runWebhookCreate_ok_ne_notAuth (cfg : Config) (useDev : Bool)
    (nameInput urlInput : List Char) (ev : List (List Char)) (hA : cfg.APIKey ≠ []) :
    runWebhookCreate (.ok cfg) useDev nameInput urlInput ev ≠ .notAuthenticated := by
  rw [runWebhookCreate, if_neg hA]
  by_cases c1 : trimList nameInput = [] <;>
    by_cases c2 : trimList urlInput = [] <;>
    by_cases c3 : hasPrefixStr (trimList urlInput) (str "https://") = false ∧
      hasPrefixStr (trimList urlInput) (str "http://") = false <;>
    by_cases c4 : ((useDev = false ∧
        hasPrefixStr (trimList urlInput) (str "https://") = false) ∧
        containsSubstr (trimList urlInput) (str "localhost") = false) ∧
      containsSubstr (trimList urlInput) (str "127.0.0.1") = false <;>
    by_cases c5 : ev = [] <;>
    simp [c1, c2, c3, c4, c5]
  all_goals (split <;> simp)

/-- C9: every successful `config.Read` returns a configuration with a
non-empty `APIKey`, so the `cfg.APIKey == ""` "not authenticated" checks
performed right after `Read` in `runWebhookCreate` and `runWebhookList`
can never fire. -/
theorem read_ok_apikey_nonempty :
    (∀ lines cfg, readConfig lines = .ok cfg → cfg.APIKey ≠ []) ∧
    (∀ file useDev nameInput urlInput ev,
      runWebhookCreate (readEnv file) useDev nameInput urlInput ev ≠ .notAuthenticated) ∧
    (∀ file, runWebhookList (readEnv file) ≠ .notAuthenticated) := by
  refine ⟨readConfig_ok_apikey_ne_nil, ?_, ?_⟩
  · intro file useDev nameInput urlInput ev
    match hfile : file with
    | none => simp [readEnv, runWebhookCreate]
    | some lines =>
      rw [readEnv]
      match hread : readConfig lines with
      | .error e => simp [runWebhookCreate]
      | .ok cfg =>
        exact runWebhookCreate_ok_ne_notAuth cfg useDev nameInput urlInput ev
          (readConfig_ok_apikey_ne_nil lines cfg hread)
  · intro file
    match hfile : file with
    | none => simp [readEnv, runWebhookList]
    | some lines =>
      rw [readEnv]
      match hread : readConfig lines with
      | .error e => simp [runWebhookList]
      | .ok cfg =>
        have hA := readConfig_ok_apikey_ne_nil lines cfg hread
        simp [runWebhookList, hA]

/-- Witness for C9 at a concrete `.env` content. -/
theorem read_ok_apikey_nonempty_witness :
    str "abc" ≠ ([] : List Char) ∧
    runWebhookCreate (readEnv (some [str "TRACEKIT_API_KEY=abc"])) false (str "hook")
      (str "https://example.com") [str "trace.error"] ≠ .notAuthenticated ∧
    runWebhookList (readEnv (some [str "TRACEKIT_API_KEY=abc"])) ≠ .notAuthenticated :=
  ⟨read_ok_apikey_nonempty.1 [str "TRACEKIT_API_KEY=abc"] ⟨str "abc", [], [], [], []⟩ (by rfl),
   read_ok_apikey_nonempty.2.1 (some [str "TRACEKIT_API_KEY=abc"]) false (str "hook")
     (str "https://example.com") [str "trace.error"],
   read_ok_apikey_nonempty.2.2 (some [str "TRACEKIT_API_KEY=abc"])⟩

/-! ## Claim C6 -/

/-- C6: masking a credential shorter than 20 characters returns it
unchanged; masking a credential of length at least 20 produces a 22-character
result revealing exactly the first 15 and last 4 characters of the input
with the fixed redaction "..." between them. -/
theorem maskAPIKey_spec :
    (∀ k : List Char, k.length < 20 → maskAPIKey k = k) ∧
    (∀ k : List Char, 20 ≤ k.length →
      (maskAPIKey k).length = 22 ∧
      (maskAPIKey k).take 15 = k.take 15 ∧
      ((maskAPIKey k).drop 15).take 3 = str "..." ∧
      (maskAPIKey k).drop 18 = k.drop (k.length - 4) ∧
      (k.drop (k.length - 4)).length = 4) := by
  constructor
  · intro k hk
    rw [maskAPIKey, if_pos hk]
  · intro k hk
    have hnot : ¬ k.length < 20 := by omega
    have htake : (k.take 15).length = 15 := by
      rw [List.length_take]; omega
    have hdrop : (k.drop (k.length - 4)).length = 4 := by
      rw [List.length_drop]; omega
    rw [maskAPIKey, if_neg hnot]
    refine ⟨?_, ?_, ?_, ?_, hdrop⟩
    · rw [List.length_append, List.length_append, htake, hdrop]
      decide
    · rw [List.append_assoc, List.take_left' htake]
    · rw [List.append_assoc, List.drop_left' htake, List.take_left' (by decide)]
    · rw [List.drop_left'
        (show (List.take 15 k ++ str "...").length = 18 by
          rw [List.length_append, htake]; decide)]

/-- Witness for C6 at two concrete keys: one of length 5, one of length 25. -/
theorem maskAPIKey_spec_witness :
    maskAPIKey (str "short") = str "short" ∧
    (maskAPIKey (str "tk_live_0123456789abcdefg")).length = 22 ∧
    (maskAPIKey (str "tk_live_0123456789abcdefg")).take 15
      = (str "tk_live_0123456789abcdefg").take 15 ∧
    ((maskAPIKey (str "tk_live_0123456789abcdefg")).drop 15).take 3 = str "..." ∧
    (maskAPIKey (str "tk_live_0123456789abcdefg")).drop 18
      = (str "tk_live_0123456789abcdefg").drop ((str "tk_live_0123456789abcdefg").length - 4) := by
  have h1 := maskAPIKey_spec.1 (str "short") (by decide)
  have h2 := maskAPIKey_spec.2 (str "tk_live_0123456789abcdefg") (by decide)
  exact ⟨h1, h2.1, h2.2.1, h2.2.2.1, h2.2.2.2.1⟩

/-! ## Claim C4 -/

/-- Counterexample to C4 as stated: a `go.mod` manifest containing no
known framework substring makes `Detect` return the language-generic
descriptor (name "go", type "go"), not the generic/unknown descriptor. -/
theorem detect_unmatched_manifest_is_language_generic :
    detect ⟨some (str "module example.com/app"), none, none, none, none, none⟩
        = ⟨"go", "", "go"⟩ ∧
    (⟨"go", "", "go"⟩ : Framework) ≠ ⟨"generic", "", "unknown"⟩ := by
  constructor
  · rfl
  · decide

/-- C4 (amended): on a directory whose first manifest in the fixed
priority order (go.mod, composer.json, package.json,
requirements.txt/pyproject.toml, Gemfile) names a known framework
substring, `Detect` returns that framework's identity and language;
a first-found manifest containing no known substrings yields the
manifest language's generic descriptor (not generic/unknown); and a
directory with no manifest at all yields the generic/unknown descriptor
without error. -/
theorem detect_table :
    (∀ (d : ProjectDir) (c : List Char), d.goMod = some c →
      containsSubstr c (str "github.com/gin-gonic/gin") = true →
      detect d = ⟨"gin", "", "go"⟩) ∧
    (∀ (d : ProjectDir) (c : List Char), d.goMod = some c →
      containsSubstr c (str "github.com/gin-gonic/gin") = false →
      containsSubstr c (str "github.com/labstack/echo") = true →
      detect d = ⟨"echo", "", "go"⟩) ∧
    (∀ (d : ProjectDir) (c : List Char), d.goMod = some c →
      containsSubstr c (str "github.com/gin-gonic/gin") = false →
      containsSubstr c (str "github.com/labstack/echo") = false →
      containsSubstr c (str "github.com/gofiber/fiber") = true →
      detect d = ⟨"fiber", "", "go"⟩) ∧
    (∀ (d : ProjectDir) (c : List Char), d.goMod = none → d.composerJson = some c →
      containsSubstr c (str "gemvc/library") = true →
      detect d = ⟨"gemvc", "", "php"⟩) ∧
    (∀ (d : ProjectDir) (c : List Char), d.goMod = none → d.composerJson = none →
      d.packageJson = some c →
      containsSubstr c (str "\"express\"") = true →
      detect d = ⟨"express", "", "node"⟩) ∧
    (∀ (d : ProjectDir) (c : List Char), d.goMod = none → d.composerJson = none →
      d.packageJson = none → d.requirementsTxt = some c →
      containsSubstr c (str "Django") = true →
      detect d = ⟨"django", "", "python"⟩) ∧
    (∀ (d : ProjectDir) (c : List Char), d.goMod = none → d.composerJson = none →
      d.packageJson = none → d.requirementsTxt = none → d.pyprojectToml = none →
      d.gemfile = some c →
      containsSubstr c (str "rails") = true →
      detect d = ⟨"rails", "", "ruby"⟩) ∧
    (∀ (d : ProjectDir) (c : List Char), d.goMod = some c →
      containsSubstr c (str "github.com/gin-gonic/gin") = false →
      containsSubstr c (str "github.com/labstack/echo") = false →
      containsSubstr c (str "github.com/gofiber/fiber") = false →
      detect d = ⟨"go", "", "go"⟩) ∧
    detect emptyDir = ⟨"generic", "", "unknown"⟩ := by
  refine ⟨?_, ?_, ?_, ?_, ?_, ?_, ?_, ?_, rfl⟩
  · intro d c h hs
    obtain ⟨g, cj, pj, rq, py, gf⟩ := d
    simp only at h
    subst h
    simp [detect, detectGoFramework, hs]
  · intro d c h h1 h2
    obtain ⟨g, cj, pj, rq, py, gf⟩ := d
    simp only at h
    subst h
    simp [detect, detectGoFramework, h1, h2]
  · intro d c h h1 h2 h3
    obtain ⟨g, cj, pj, rq, py, gf⟩ := d
    simp only at h
    subst h
    simp [detect, detectGoFramework, h1, h2, h3]
  · intro d c h1 h2 hs
    obtain ⟨g, cj, pj, rq, py, gf⟩ := d
    simp only at h1 h2
    subst h1; subst h2
    simp [detect, detectPHPFramework, hs]
  · intro d c h1 h2 h3 hs
    obtain ⟨g, cj, pj, rq, py, gf⟩ := d
    simp only at h1 h2 h3
    subst h1; subst h2; subst h3
    simp [detect, detectNodeFramework, hs]
  · intro d c h1 h2 h3 h4 hs
    obtain ⟨g, cj, pj, rq, py, gf⟩ := d
    simp only at h1 h2 h3 h4
    subst h1; subst h2; subst h3; subst h4
    simp [detect, detectPythonFramework, hs]
  · intro d c h1 h2 h3 h4 h5 h6 hs
    obtain ⟨g, cj, pj, rq, py, gf⟩ := d
    simp only at h1 h2 h3 h4 h5 h6
    subst h1; subst h2; subst h3; subst h4; subst h5; subst h6
    simp [detect, detectRubyFramework, hs]
  · intro d c h h1 h2 h3
    obtain ⟨g, cj, pj, rq, py, gf⟩ := d
    simp only at h
    subst h
    simp [detect, detectGoFramework, h1, h2, h3]

/-- Witness for C4's amended table at concrete manifests, one per
hypothesis-bearing conjunct. -/
theorem detect_table_witness :
    detect ⟨some (str "require github.com/gin-gonic/gin v1.9.0"), none, none, none, none, none⟩
        = ⟨"gin", "", "go"⟩ ∧
    detect ⟨some (str "require github.com/labstack/echo/v4 v4.11.0"), none, none, none, none, none⟩
        = ⟨"echo", "", "go"⟩ ∧
    detect ⟨some (str "require github.com/gofiber/fiber/v2 v2.50.0"), none, none, none, none, none⟩
        = ⟨"fiber", "", "go"⟩ ∧
    detect ⟨none, some (str "\"gemvc/library\": \"^1.0\""), none, none, none, none⟩
        = ⟨"gemvc", "", "php"⟩ ∧
    detect ⟨none, none, some (str "\"express\": \"^4.18.0\""), none, none, none⟩
        = ⟨"express", "", "node"⟩ ∧
    detect ⟨none, none, none, some (str "Django==4.2"), none, none⟩
        = ⟨"django", "", "python"⟩ ∧
    detect ⟨none, none, none, none, none, some (str "gem rails")⟩
        = ⟨"rails", "", "ruby"⟩ ∧
    detect ⟨some (str "module mymod"), none, none, none, none, none⟩
        = ⟨"go", "", "go"⟩ :=
  ⟨detect_table.1 _ _ rfl (by decide),
   detect_table.2.1 _ _ rfl (by decide) (by decide),
   detect_table.2.2.1 _ _ rfl (by decide) (by decide) (by decide),
   detect_table.2.2.2.1 _ _ rfl rfl (by decide),
   detect_table.2.2.2.2.1 _ _ rfl rfl rfl (by decide),
   detect_table.2.2.2.2.2.1 _ _ rfl rfl rfl rfl (by decide),
   detect_table.2.2.2.2.2.2.1 _ _ rfl rfl rfl rfl rfl rfl (by decide),
   detect_table.2.2.2.2.2.2.2.1 _ _ rfl (by decide) (by decide) (by decide)⟩

/-! ## Claim C5 -/

/-- Counterexample to C5 as stated: the client checks `StatusCode != 200`,
not "non-2xx".  A 201 response whose (valid JSON) body unmarshals into the
error shape makes `Register` fail with an API-error result even though the
status is 2xx — under the claim, a 2xx response with a parseable body
should succeed. -/
theorem register_fails_on_201 :
    register (.response 201 ⟨str "\x7b\"verification_required\":true,\"session_id\":\"sess\"\x7d",
        some [], some ⟨true, str "sess", [], []⟩, true⟩)
      = .error (.apiError 201 []) ∧ 200 ≤ 201 ∧ 201 < 300 := by
  exact ⟨rfl, by decide, by decide⟩

/-- C5 (amended): `Register` (and `GetStatus`, which shares the shape)
fails with an API-error carrying the server's message exactly when the
HTTP status differs from 200 (`http.StatusOK`) and the body parses as the
structured error shape; it falls back to the generic unexpected-status
message when the body does not parse, fails with a transport error on
network failure, and returns the parsed response on a 200 whose body
parses. -/
theorem register_error_shape :
    (∀ m, register (.failure m) = .error (.transport m)) ∧
    (∀ (st : Nat) (body : BodyModel) (m : List Char), st ≠ 200 →
      body.errorField = some m →
      register (.response st body) = .error (.apiError st m)) ∧
    (∀ (st : Nat) (body : BodyModel), st ≠ 200 → body.errorField = none →
      register (.response st body) = .error (.unexpectedStatus st body.raw)) ∧
    (∀ (body : BodyModel) (r : RegisterResponse), body.asRegister = some r →
      register (.response 200 body) = .ok r) ∧
    (∀ (net : NetOutcome) (st : Nat) (m : List Char),
      register net = .error (.apiError st m) →
      ∃ body, net = .response st body ∧ st ≠ 200 ∧ body.errorField = some m) ∧
    (∀ (key : List Char) m, key ≠ [] →
      getStatus key (.failure m) = .error (.transport m)) ∧
    (∀ (key : List Char) (st : Nat) (body : BodyModel) (m : List Char),
      key ≠ [] → st ≠ 200 → body.errorField = some m →
      getStatus key (.response st body) = .error (.apiError st m)) := by
  refine ⟨fun m => rfl, ?_, ?_, ?_, ?_, ?_, ?_⟩
  · intro st body m hst hbe
    simp [register, hst, hbe]
  · intro st body hst hbe
    simp [register, hst, hbe]
  · intro body r hbr
    simp [register, hbr]
  · intro net st m h
    match net with
    | .failure msg => simp [register] at h
    | .response st' body =>
      by_cases hst : st' ≠ 200
      · match hbe : body.errorField with
        | some m' =>
          simp [register, hst, hbe] at h
          exact ⟨body, by rw [h.1], by rw [← h.1]; exact hst, by rw [hbe, h.2]⟩
        | none => simp [register, hst, hbe] at h
      · match hbr : body.asRegister with
        | some r => simp [register, hst, hbr] at h
        | none => simp [register, hst, hbr] at h
  · intro key m hk
    simp [getStatus, hk]
  · intro key st body m hk hst hbe
    simp [getStatus, hk, hst, hbe]

/-- Witness for C5's amended shape at concrete exchanges. -/
theorem register_error_shape_witness :
    register (.failure (str "dial tcp: connection refused"))
      = .error (.transport (str "dial tcp: connection refused")) ∧
    register (.response 401 ⟨str "\x7b\"error\":\"invalid session\"\x7d",
        some (str "invalid session"), none, false⟩)
      = .error (.apiError 401 (str "invalid session")) ∧
    register (.response 500 ⟨str "<html>oops</html>", none, none, false⟩)
      = .error (.unexpectedStatus 500 (str "<html>oops</html>")) ∧
    register (.response 200 ⟨str "\x7b\"session_id\":\"s1\"\x7d", some [],
        some ⟨true, str "s1", str "ok", str "2026-01-01"⟩, true⟩)
      = .ok ⟨true, str "s1", str "ok", str "2026-01-01"⟩ ∧
    getStatus (str "tk_key") (.response 401 ⟨str "\x7b\"error\":\"revoked\"\x7d",
        some (str "revoked"), none, false⟩)
      = .error (.apiError 401 (str "revoked")) :=
  ⟨register_error_shape.1 _,
   register_error_shape.2.1 401 _ _ (by decide) rfl,
   register_error_shape.2.2.1 500 _ (by decide) rfl,
   register_error_shape.2.2.2.1 _ _ rfl,
   register_error_shape.2.2.2.2.2.2 (str "tk_key") 401 _ _ (by decide) (by decide) rfl⟩

/-! ## Claim C7 -/

/-- Counterexample to C7 as stated: outside development mode, the HTTPS
enforcement exempts any URL *containing* the substring "localhost", so the
non-localhost plain-HTTP URL `http://example.com/localhost` (host
`example.com`) passes validation and reaches the network call instead of
being rejected. -/
theorem webhook_create_accepts_http_with_localhost_substring :
    runWebhookCreate (.ok ⟨str "tk_key", [], [], [], []⟩) false (str "hook")
        (str "http://example.com/localhost") [str "trace.error"]
      = .networkCall (str "http://example.com/localhost") (str "hook") ∧
    hasPrefixStr (str "http://example.com/localhost") (str "https://") = false ∧
    hasPrefixStr (str "http://example.com/localhost") (str "http://localhost") = false ∧
    hasPrefixStr (str "http://example.com/localhost") (str "http://127.0.0.1") = false := by
  refine ⟨by decide, by decide, by decide, by decide⟩

/-- C7 (amended): outside development mode, webhook creation rejects with
a validation error, before any network call, every webhook URL that is not
HTTPS and does not contain the substrings "localhost" or "127.0.0.1": a
URL without an http/https scheme fails the scheme check and a plain-HTTP
URL without those substrings fails the HTTPS enforcement. -/
theorem webhook_create_rejects_plain_http
    (cfg : Config) (nameInput urlInput : List Char) (ev : List (List Char))
    (hA : cfg.APIKey ≠ [])
    (hname : trimList nameInput ≠ [])
    (h1 : hasPrefixStr (trimList urlInput) (str "https://") = false)
    (h2 : containsSubstr (trimList urlInput) (str "localhost") = false)
    (h3 : containsSubstr (trimList urlInput) (str "127.0.0.1") = false) :
    (runWebhookCreate (.ok cfg) false nameInput urlInput ev = .urlRequired ∨
     runWebhookCreate (.ok cfg) false nameInput urlInput ev = .badScheme ∨
     runWebhookCreate (.ok cfg) false nameInput urlInput ev = .httpsRequired) ∧
    ∀ u n, runWebhookCreate (.ok cfg) false nameInput urlInput ev ≠ .networkCall u n := by
  rw [runWebhookCreate, if_neg hA, if_neg hname]
  by_cases hu : trimList urlInput = []
  · constructor
    · exact Or.inl (by simp [hu])
    · intro u n
      simp [hu]
  · by_cases hh : hasPrefixStr (trimList urlInput) (str "http://") = true
    · constructor
      · exact Or.inr (Or.inr (by simp [hu, h1, hh, h2, h3]))
      · intro u n
        simp [hu, h1, hh, h2, h3]
    · have hh' : hasPrefixStr (trimList urlInput) (str "http://") = false := by
        simpa using hh
      constructor
      · exact Or.inr (Or.inl (by simp [hu, h1, hh']))
      · intro u n
        simp [hu, h1, hh']

/-- Witness for C7's amended statement at a concrete plain-HTTP URL. -/
theorem webhook_create_rejects_plain_http_witness :
    (runWebhookCreate (.ok ⟨str "tk_key", [], [], [], []⟩) false (str "hook")
        (str "http://evil.example.com/hook") [str "trace.error"] = .urlRequired ∨
     runWebhookCreate (.ok ⟨str "tk_key", [], [], [], []⟩) false (str "hook")
        (str "http://evil.example.com/hook") [str "trace.error"] = .badScheme ∨
     runWebhookCreate (.ok ⟨str "tk_key", [], [], [], []⟩) false (str "hook")
        (str "http://evil.example.com/hook") [str "trace.error"] = .httpsRequired) ∧
    ∀ u n, runWebhookCreate (.ok ⟨str "tk_key", [], [], [], []⟩) false (str "hook")
        (str "http://evil.example.com/hook") [str "trace.error"] ≠ .networkCall u n :=
  webhook_create_rejects_plain_http ⟨str "tk_key", [], [], [], []⟩ (str "hook")
    (str "http://evil.example.com/hook") [str "trace.error"]
    (by decide) (by decide) (by decide) (by decide) (by decide)

/-! ## Claim C8 -/

/-- `GetStatus` on a 401 response always produces an error value. -/
theorem getStatus_401_error (key : List Char) (body : BodyModel) :
    ∃ e, getStatus key (.response 401 body) = .error e := by
  by_cases hk : key = []
  · exact ⟨.authRequired, by rw [getStatus, if_pos hk]⟩
  · match hbe : body.errorField with
    | some m => exact ⟨.apiError 401 m, by simp [getStatus, hk, hbe]⟩
    | none => exact ⟨.unexpectedStatus 401 body.raw, by simp [getStatus, hk, hbe]⟩

/-- C8: when the status endpoint answers HTTP 401, `runStatus` reports the
failure via the "Failed to verify API key" error print and returns `nil`
(the `verifyError` outcome), and in particular does not panic. -/
theorem status_cmd_handles_401 (cfg : Config) (det : Except (List Char) Framework)
    (body : BodyModel) :
    (∃ e, runStatus (.ok cfg) det (.response 401 body) = .verifyError e) ∧
    runStatus (.ok cfg) det (.response 401 body) ≠ .nilPointerPanic := by
  obtain ⟨e, he⟩ := getStatus_401_error cfg.APIKey body
  refine ⟨⟨e, ?_⟩, ?_⟩
  · simp [runStatus, he]
  · simp [runStatus, he]

/-! ## Claim C10 -/

/-- C10 is false of the code: with a readable `.env`, a failing framework
detection (nil descriptor) and a successful status call, `runStatus`
reaches the next-steps branch and dereferences the nil `framework`
pointer — the run panics instead of completing. -/
theorem status_cmd_nil_deref_on_detect_failure :
    runStatus (.ok ⟨str "tk_key", str "https://api.tracekit.dev/v1/traces",
        str "svc", str "true", str "true"⟩)
      (.error (str "open go.mod: permission denied"))
      (.response 200 ⟨str "\x7b\"status\":\"active\"\x7d", some [], none, true⟩)
      = .nilPointerPanic := by
  rfl

/-! ## Claim C3 -/

/-- C3: in the upgrade flow, (1) a callback request carrying
`status=success` and a plan is the one delivered on the result channel,
and (2) when it arrives before the 2-minute short wait elapses the wait
resolves immediately with that reported plan; (3) when the short wait
elapses with no delivered callback the flow transitions to polling the
subscription endpoint (also when a callback arrived only after the short
wait); (4) a poll observing a plan different from the starting plan
terminates the wait reporting the new plan; and (5) exhausting the polls
available before the 5-minute polling timeout with no plan change yields
the timeout failure. -/
theorem upgrade_wait_behaviour :
    (∀ (plan : List Char) (reqs : List (List Char × List Char)),
      firstCallbackResult ((str "success", plan) :: reqs)
        = some ⟨str "success", plan⟩) ∧
    (∀ (old plan : List Char) (t : Nat) (r : UpgradeResult)
        (polls : List (Option SubscriptionResponse)),
      handleCallback (str "success") plan = some r → t < shortWaitSeconds →
      upgradeWait old (some (t, r)) polls = .callbackSuccess plan) ∧
    (∀ (old : List Char) (polls : List (Option SubscriptionResponse)),
      upgradeWait old none polls = pollForUpgrade old polls) ∧
    (∀ (old : List Char) (t : Nat) (r : UpgradeResult)
        (polls : List (Option SubscriptionResponse)),
      ¬ t < shortWaitSeconds →
      upgradeWait old (some (t, r)) polls = pollForUpgrade old polls) ∧
    (∀ (old : List Char) (pre : List (Option SubscriptionResponse))
        (sub : SubscriptionResponse) (rest : List (Option SubscriptionResponse)),
      (∀ x ∈ pre, ∀ s, x = some s → s.plan = old) → sub.plan ≠ old →
      pollForUpgrade old (pre ++ some sub :: rest) = .pollSuccess sub.plan) ∧
    (∀ (old : List Char) (polls : List (Option SubscriptionResponse)),
      (∀ x ∈ polls, ∀ s, x = some s → s.plan = old) →
      pollForUpgrade old polls = .timeoutFailure) := by
  refine ⟨?_, ?_, ?_, ?_, ?_, ?_⟩
  · intro plan reqs
    rw [firstCallbackResult, handleCallback, if_pos rfl]
  · intro old plan t r polls hr ht
    have hr' : r = ⟨str "success", plan⟩ := by
      rw [handleCallback, if_pos rfl] at hr
      exact (Option.some.injEq .. ▸ hr :).symm
    subst hr'
    rw [upgradeWait, upgradeSelect, if_pos ht]
  · intro old polls
    rfl
  · intro old t r polls ht
    rw [upgradeWait, upgradeSelect, if_neg ht]
  · intro old pre sub rest hpre hsub
    induction pre with
    | nil => rw [List.nil_append, pollForUpgrade, if_pos hsub]
    | cons x xs ih =>
      have ih' := ih (fun y hy => hpre y (List.mem_cons_of_mem _ hy))
      match x with
      | none => rw [List.cons_append, pollForUpgrade]; exact ih'
      | some s =>
        have hs : s.plan = old := hpre (some s) (List.mem_cons_self _ _) s rfl
        rw [List.cons_append, pollForUpgrade, if_neg (by simp [hs])]
        exact ih'
  · intro old polls hall
    induction polls with
    | nil => rfl
    | cons x xs ih =>
      have ih' := ih (fun y hy => hall y (List.mem_cons_of_mem _ hy))
      match x with
      | none => rw [pollForUpgrade]; exact ih'
      | some s =>
        have hs : s.plan = old := hall (some s) (List.mem_cons_self _ _) s rfl
        rw [pollForUpgrade, if_neg (by simp [hs])]
        exact ih'

/-- Witness for C3 at concrete plans, arrival times and poll sequences. -/
theorem upgrade_wait_behaviour_witness :
    firstCallbackResult ((str "success", str "pro") :: [(str "success", str "max")])
      = some ⟨str "success", str "pro"⟩ ∧
    upgradeWait (str "free") (some (5, ⟨str "success", str "pro"⟩)) []
      = .callbackSuccess (str "pro") ∧
    upgradeWait (str "free") none [some ⟨str "free", str "active", 200000⟩]
      = pollForUpgrade (str "free") [some ⟨str "free", str "active", 200000⟩] ∧
    upgradeWait (str "free") (some (150, ⟨str "success", str "pro"⟩))
        [some ⟨str "free", str "active", 200000⟩]
      = pollForUpgrade (str "free") [some ⟨str "free", str "active", 200000⟩] ∧
    pollForUpgrade (str "free")
        ([none, some ⟨str "free", str "active", 200000⟩] ++
          some ⟨str "pro", str "active", 2000000⟩ :: [])
      = .pollSuccess (str "pro") ∧
    pollForUpgrade (str "free") [none, some ⟨str "free", str "active", 200000⟩]
      = .timeoutFailure :=
  ⟨upgrade_wait_behaviour.1 (str "pro") [(str "success", str "max")],
   upgrade_wait_behaviour.2.1 (str "free") (str "pro") 5 ⟨str "success", str "pro"⟩ []
     rfl (by decide),
   upgrade_wait_behaviour.2.2.1 (str "free") [some ⟨str "free", str "active", 200000⟩],
   upgrade_wait_behaviour.2.2.2.1 (str "free") 150 ⟨str "success", str "pro"⟩
     [some ⟨str "free", str "active", 200000⟩] (by decide),
   upgrade_wait_behaviour.2.2.2.2.1 (str "free")
     [none, some ⟨str "free", str "active", 200000⟩]
     ⟨str "pro", str "active", 2000000⟩ []
     (by
       intro x hx s hs
       fin_cases hx
       · simp at hs
       · rw [Option.some_inj] at hs
         subst hs
         rfl) (by decide),
   upgrade_wait_behaviour.2.2.2.2.2 (str "free")
     [none, some ⟨str "free", str "active", 200000⟩]
     (by
       intro x hx s hs
       fin_cases hx
       · simp at hs
       · rw [Option.some_inj] at hs
         subst hs
         rfl)⟩

end TracekitCLI
